import Mathlib

/-!
Shallow embedding of `dbt-oracle`'s `src/dbt/adapters/oracle/connections.py`:
the credential/descriptor resolver (`OracleAdapterCredentials.connection_method`,
`OracleAdapterCredentials.get_dsn`) and the connection manager
(`open`, `cancel`, `exception_handler`, `add_query`) of
`OracleAdapterConnectionManager`.

Optional string fields follow Python truthiness (`None` and `""` are both
falsy); integers and strings from the host are modelled with Lean `Int` and
`String`; side effects of `add_query` are modelled as an explicit action
trace; exceptions are modelled as an inductive mirroring the Python classes
involved, with the subclass relations of the real hierarchies
(`cx_Oracle.DatabaseError <: cx_Oracle.Error`, and in dbt
`FailedToConnectException <: DatabaseException <: RuntimeException`).
-/

namespace DbtOracle

/-- Python truthiness for an `Optional[str]` field: `None` and `""` are falsy. -/
def truthyStr : Option String → Bool
  | none => false
  | some s => !s.isEmpty

/-- Python truthiness for an `Optional[bool]` field: `None` and `False` are falsy. -/
def truthyOptBool : Option Bool → Bool
  | none => false
  | some b => b

/-- Python `f"{x}"` rendering of an `Optional[int]` field (`None` prints `"None"`). -/
def optIntRepr : Option Int → String
  | none => "None"
  | some i => toString i

/-- The `OracleConnectionMethod` enum from `connections.py`. -/
inductive OracleConnectionMethod where
  | HOST
  | TNS
  | CONNECTION_STRING
deriving DecidableEq, Repr

/-- The `OracleAdapterCredentials` dataclass. `user`, `password`, `database` and
`schema` are the required fields inherited from dbt's `Credentials` base; the
rest are the optional fields declared in `connections.py` with their defaults. -/
structure OracleAdapterCredentials where
  user : String
  password : String
  database : String
  schema : String
  port : Option Int := some 1521
  host : Option String := none
  service : Option String := none
  connection_string : Option String := none
  debug_log_commands : Option Bool := some false
  cursor_precode : Option String := none
deriving DecidableEq, Repr

/-- `OracleAdapterCredentials.connection_method`: connection string beats host
beats TNS, by Python truthiness of the two optional fields. -/
def OracleAdapterCredentials.connection_method
    (c : OracleAdapterCredentials) : OracleConnectionMethod :=
  if truthyStr c.connection_string then .CONNECTION_STRING
  else if truthyStr c.host then .HOST
  else .TNS

/-- `OracleAdapterCredentials.get_dsn`: TNS returns `database`; connection-string
returns the raw field; host builds `f"{host}:{port}/{service}"` where `service`
falls back to `database` when the `service` field is falsy. -/
def OracleAdapterCredentials.get_dsn (c : OracleAdapterCredentials) : String :=
  match c.connection_method with
  | .TNS => c.database
  | .CONNECTION_STRING => c.connection_string.getD ""
  | .HOST =>
      let service := if truthyStr c.service then c.service.getD "" else c.database
      (c.host.getD "") ++ ":" ++ optIntRepr c.port ++ "/" ++ service

/-- Example credentials from the spec: host connection with default port. -/
def credHostExample : OracleAdapterCredentials :=
  { user := "scott", password := "tiger", database := "ORCL", schema := "dbt",
    host := some "db.example.com" }

/-- Example credentials: connection-string method. -/
def credCsExample : OracleAdapterCredentials :=
  { user := "scott", password := "tiger", database := "ORCL", schema := "dbt",
    connection_string := some "orcl_high" }

/-- Example credentials: TNS fallback (no host, no connection string). -/
def credTnsExample : OracleAdapterCredentials :=
  { user := "scott", password := "tiger", database := "ORCL", schema := "dbt" }

/-- Exceptions visible to `connections.py`, as an inductive. `cxDatabaseError`
is `cx_Oracle.DatabaseError` (a subclass of `cx_Oracle.Error`);
`cxOtherError` is a `cx_Oracle.Error` that is not a `DatabaseError`;
`dbtRuntime`, `dbtDatabase` and `dbtFailedToConnect` are dbt's
`RuntimeException`, `DatabaseException` and `FailedToConnectException`
(each of the latter two subclasses `RuntimeException`); `dbtRuntimeWrap e` is
`dbt.exceptions.RuntimeException(e)` built around another exception `e`, so
the wrapped original is kept as the cause; `generic` is any other
`Exception`. -/
inductive Exc where
  | cxDatabaseError : String → Exc
  | cxOtherError : String → Exc
  | dbtRuntime : String → Exc
  | dbtDatabase : String → Exc
  | dbtFailedToConnect : String → Exc
  | dbtRuntimeWrap : Exc → Exc
  | generic : String → Exc
deriving DecidableEq, Repr

/-- Python `isinstance(e, cx_Oracle.DatabaseError)`. -/
def Exc.isCxDatabaseError : Exc → Bool
  | .cxDatabaseError _ => true
  | _ => false

/-- Python `isinstance(e, cx_Oracle.Error)`: `DatabaseError` subclasses `Error`. -/
def Exc.isCxError : Exc → Bool
  | .cxDatabaseError _ => true
  | .cxOtherError _ => true
  | _ => false

/-- Python `isinstance(e, dbt.exceptions.RuntimeException)`: in dbt,
`DatabaseException` and `FailedToConnectException` subclass `RuntimeException`. -/
def Exc.isDbtRuntime : Exc → Bool
  | .dbtRuntime _ => true
  | .dbtDatabase _ => true
  | .dbtFailedToConnect _ => true
  | .dbtRuntimeWrap _ => true
  | _ => false

/-- Python `isinstance(e, dbt.exceptions.FailedToConnectException)`. -/
def Exc.isFailedToConnect : Exc → Bool
  | .dbtFailedToConnect _ => true
  | _ => false

/-- Result of running a block of Python code: normal return or a raised
exception. -/
inductive Outcome (α : Type) where
  | ok : α → Outcome α
  | raised : Exc → Outcome α
deriving DecidableEq, Repr

/-- What `exception_handler` produced: the final outcome, and whether
`self.release()` was called. -/
structure HandlerResult (α : Type) where
  result : Outcome α
  releaseCalled : Bool
deriving DecidableEq, Repr

/-- `OracleAdapterConnectionManager.exception_handler`.
`releaseBehavior` models `self.release()` (host-tool code outside this file):
`none` means it returns normally, `some r` means it raises `r`.
`body` is the outcome of the wrapped block.

Faithful to the source: a `cx_Oracle.DatabaseError` from the body triggers a
release attempt whose failure is swallowed only when it is a
`cx_Oracle.Error` (any other exception from release propagates), then
`dbt.exceptions.DatabaseException(str(sql) + str(e).strip())` is raised;
any other exception from the body triggers an unguarded release, then the
exception is re-raised as-is when it is already a dbt `RuntimeException`
and is wrapped in `RuntimeException(e)` otherwise. -/
def exception_handler (sql : String) (releaseBehavior : Option Exc)
    (body : Outcome α) : HandlerResult α :=
  match body with
  | .ok a => ⟨.ok a, false⟩
  | .raised e =>
    match e with
    | .cxDatabaseError msg =>
      match releaseBehavior with
      | some r =>
          if r.isCxError then
            ⟨.raised (.dbtDatabase (sql ++ msg.trim)), true⟩
          else
            ⟨.raised r, true⟩
      | none => ⟨.raised (.dbtDatabase (sql ++ msg.trim)), true⟩
    | _ =>
      match releaseBehavior with
      | some r => ⟨.raised r, true⟩
      | none =>
          if e.isDbtRuntime then ⟨.raised e, true⟩
          else ⟨.raised (.dbtRuntimeWrap e), true⟩

/-- The host-tool `Connection` entity as consumed here: a state string
(`"open"`, `"fail"`, ...), the native handle (modelled as an id), a name, a
transaction flag, and the credentials (the source reads them both as
`connection.credentials` and `connection._credentials`). -/
structure DBTConnection where
  name : String
  state : String
  handle : Option Nat
  transaction_open : Bool
  credentials : OracleAdapterCredentials
deriving DecidableEq, Repr

/-- `OracleAdapterConnectionManager.open`. `connectResult` models the call
`cx_Oracle.connect(user, password, dsn, encoding="UTF-8")`: `.ok h` is a new
native handle, `.error msg` a `cx_Oracle.DatabaseError` with message `msg`.
Returns the connection, the raised exception if any
(`FailedToConnectException` on driver failure), and whether a handle
creation was attempted. -/
def openConn (connectResult : Except String Nat) (conn : DBTConnection) :
    DBTConnection × Option Exc × Bool :=
  if conn.state = "open" then (conn, none, false)
  else
    match connectResult with
    | .ok h => ({ conn with handle := some h, state := "open" }, none, true)
    | .error msg =>
        ({ conn with handle := none, state := "fail" },
         some (.dbtFailedToConnect msg), true)

/-- `OracleAdapterConnectionManager.cancel`. `closeResult` models
`OracleConnection.close(connection.handle)`: `none` succeeds, `some m` raises
with message `m`, which the source re-raises as a plain `Exception(str(e))`.
The `DBTConnection` record itself is not mutated by `cancel`. -/
def cancel (closeResult : Option String) (conn : DBTConnection) :
    DBTConnection × Option Exc :=
  match closeResult with
  | none => (conn, none)
  | some m => (conn, some (.generic m))

/-- Observable effects of `add_query`, in order: the host tool's
transaction-begin, a fired log event, cursor creation on the handle,
`cursor.execute(precode)`, `cursor.execute(sql, bindings)`, and
`connection.handle.commit()`. -/
inductive Action where
  | beginTxn
  | fireEvent (msg : String)
  | createCursor
  | executePre (stmt : String)
  | executeSql (stmt : String) (bindings : String)
  | commit
deriving DecidableEq, Repr

/-- `OracleAdapterConnectionManager.add_query` on its successful path, as an
action trace plus the returned `(connection, cursor)` pair. Bindings are kept
abstract as a token string. `self.begin()` is host-tool code modelled by the
`beginTxn` action and by opening the transaction flag. The post-execution
status event's text (driver status plus wall-clock elapsed time) is
abstracted to a fixed marker; `logger.debug` diagnostics are not traced. -/
def add_query (conn : DBTConnection) (cursorId : Nat) (sql : String)
    (auto_begin : Bool) (bindings : String) (abridge_sql_log : Bool) :
    List Action × DBTConnection × Nat :=
  let doBegin := auto_begin && !conn.transaction_open
  let conn' := if doBegin then { conn with transaction_open := true } else conn
  let log_sql := if abridge_sql_log then sql.take 512 ++ "..." else sql
  let debugOn := truthyOptBool conn.credentials.debug_log_commands
  ((if doBegin then [Action.beginTxn] else []) ++
   (if debugOn then
      [Action.fireEvent ("On " ++ conn.name ++ ": " ++ log_sql)] else []) ++
   [Action.createCursor] ++
   (if truthyStr conn.credentials.cursor_precode then
      [Action.executePre (conn.credentials.cursor_precode.getD "")] else []) ++
   [Action.executeSql sql bindings, Action.commit] ++
   (if debugOn then [Action.fireEvent "SQL status: OK"] else []),
   conn', cursorId)

/-- Example connection in the `"open"` state. -/
def connOpenExample : DBTConnection :=
  { name := "master", state := "open", handle := some 7,
    transaction_open := false, credentials := credTnsExample }

/-- Example connection in the initial (not-yet-open) state, with a configured
cursor precode and debug logging enabled. -/
def connInitExample : DBTConnection :=
  { name := "model.t", state := "init", handle := none,
    transaction_open := false,
    credentials := { credHostExample with
                      cursor_precode := some "alter session set current_schema = dbt",
                      debug_log_commands := some true } }

end DbtOracle

namespace DbtOracle

/-- C1: `connection_method` returns exactly one of the three methods by fixed
priority — CONNECTION_STRING when the connection-string field is truthy
(non-None, non-empty), else HOST when the host field is truthy, else TNS —
and no field other than `connection_string` and `host` affects the result.
Purity and totality hold by construction: it is a total Lean function. -/
theorem C1_connection_method_priority (c : OracleAdapterCredentials) :
    (truthyStr c.connection_string = true →
      c.connection_method = OracleConnectionMethod.CONNECTION_STRING) ∧
    (truthyStr c.connection_string = false → truthyStr c.host = true →
      c.connection_method = OracleConnectionMethod.HOST) ∧
    (truthyStr c.connection_string = false → truthyStr c.host = false →
      c.connection_method = OracleConnectionMethod.TNS) ∧
    (∀ c₂ : OracleAdapterCredentials,
      c₂.connection_string = c.connection_string → c₂.host = c.host →
      c₂.connection_method = c.connection_method) := by
  refine ⟨?_, ?_, ?_, ?_⟩
  · intro h
    simp [OracleAdapterCredentials.connection_method, h]
  · intro h₁ h₂
    simp [OracleAdapterCredentials.connection_method, h₁, h₂]
  · intro h₁ h₂
    simp [OracleAdapterCredentials.connection_method, h₁, h₂]
  · intro c₂ h₁ h₂
    simp [OracleAdapterCredentials.connection_method, h₁, h₂]

/-- C1 witness: the three priority branches realized at three concrete
credential values (connection string set, only host set, neither set). -/
theorem C1_connection_method_priority_witness :
    (truthyStr credCsExample.connection_string = true ∧
      credCsExample.connection_method = OracleConnectionMethod.CONNECTION_STRING) ∧
    (truthyStr credHostExample.connection_string = false ∧
      truthyStr credHostExample.host = true ∧
      credHostExample.connection_method = OracleConnectionMethod.HOST) ∧
    (truthyStr credTnsExample.connection_string = false ∧
      truthyStr credTnsExample.host = false ∧
      credTnsExample.connection_method = OracleConnectionMethod.TNS) :=
  ⟨⟨by decide, (C1_connection_method_priority credCsExample).1 (by decide)⟩,
   ⟨by decide, by decide,
      (C1_connection_method_priority credHostExample).2.1 (by decide) (by decide)⟩,
   ⟨by decide, by decide,
      (C1_connection_method_priority credTnsExample).2.2.1 (by decide) (by decide)⟩⟩

/-- C2: `get_dsn` returns the `database` field verbatim under TNS, the
`connection_string` field verbatim under CONNECTION_STRING, and
`"{host}:{port}/{service}"` under HOST, where `service` is the configured
service field when truthy and the `database` field otherwise. -/
theorem C2_get_dsn_shape (c : OracleAdapterCredentials) :
    (c.connection_method = OracleConnectionMethod.TNS → c.get_dsn = c.database) ∧
    (∀ s, c.connection_string = some s →
      c.connection_method = OracleConnectionMethod.CONNECTION_STRING →
      c.get_dsn = s) ∧
    (∀ h, c.host = some h →
      c.connection_method = OracleConnectionMethod.HOST →
      c.get_dsn = h ++ ":" ++ optIntRepr c.port ++ "/" ++
        (if truthyStr c.service then c.service.getD "" else c.database)) := by
  refine ⟨?_, ?_, ?_⟩
  · intro hm
    simp [OracleAdapterCredentials.get_dsn, hm]
  · intro s hs hm
    simp [OracleAdapterCredentials.get_dsn, hm, hs]
  · intro h hh hm
    simp [OracleAdapterCredentials.get_dsn, hm, hh]

/-- C2 witness: the spec's example `{host="db.example.com", port=1521,
database="ORCL", service=None}` resolves to address
`"db.example.com:1521/ORCL"`; the TNS and connection-string examples resolve
to `"ORCL"` and `"orcl_high"`. -/
theorem C2_get_dsn_shape_witness :
    credHostExample.get_dsn = "db.example.com:1521/ORCL" ∧
    credTnsExample.get_dsn = "ORCL" ∧
    credCsExample.get_dsn = "orcl_high" :=
  ⟨by
    have := (C2_get_dsn_shape credHostExample).2.2 "db.example.com" rfl (by decide)
    simpa using this,
   by
    have := (C2_get_dsn_shape credTnsExample).1 (by decide)
    simpa using this,
   by
    have := (C2_get_dsn_shape credCsExample).2.1 "orcl_high" rfl (by decide)
    simpa using this⟩

/-- C8: descriptor resolution never consults the password — two credential
values that differ only in the password field get the same connection method
and the same DSN. -/
theorem C8_password_independence (c : OracleAdapterCredentials) (p : String) :
    ({ c with password := p } : OracleAdapterCredentials).connection_method
        = c.connection_method ∧
    ({ c with password := p } : OracleAdapterCredentials).get_dsn = c.get_dsn := by
  constructor
  · simp [OracleAdapterCredentials.connection_method]
  · simp [OracleAdapterCredentials.get_dsn, OracleAdapterCredentials.connection_method]

/-- Helper: on a body exception that is not a `cx_Oracle.DatabaseError`, the
handler takes the generic `except Exception` branch: release is called
unguarded, then re-raise or wrap. -/
theorem handler_raised_nonDriver_eq (sql : String) (rel : Option Exc) (e : Exc)
    (he : e.isCxDatabaseError = false) :
    (exception_handler sql rel (Outcome.raised e) : HandlerResult α) =
      match rel with
      | some r => ⟨.raised r, true⟩
      | none =>
          if e.isDbtRuntime then ⟨.raised e, true⟩
          else ⟨.raised (.dbtRuntimeWrap e), true⟩ := by
  cases e <;> simp_all [exception_handler, Exc.isCxDatabaseError]

/-- C3 counterexample: the claim says a failure of the release attempt is
"only logged, never escalated", but the source guards the release only
against `cx_Oracle.Error`; when `self.release()` raises any other exception
(here a generic one), that exception propagates and replaces the
`DatabaseException` that should have carried the SQL text. -/
theorem C3_release_escalation_counterexample :
    (exception_handler "select 1" (some (Exc.generic "release boom"))
        (Outcome.raised (Exc.cxDatabaseError "ORA-00942")) : HandlerResult Unit)
      = ⟨.raised (.generic "release boom"), true⟩ := by
  rfl

/-- C3 amended: when statement execution raises a driver/database error, the
handler attempts to release the connection — a driver-typed
(`cx_Oracle.Error`) failure of that release is only logged, never escalated —
and then raises a `DatabaseException` whose message is the original SQL text
concatenated with the stripped driver message, hence containing both (the
final two conjuncts exhibit the SQL as a prefix and the stripped driver
message as a suffix of the raised message). -/
theorem C3_driver_error_translation (sql msg : String) (rel : Option Exc)
    (hrel : ∀ r, rel = some r → r.isCxError = true) :
    (exception_handler sql rel (Outcome.raised (Exc.cxDatabaseError msg))
        : HandlerResult Unit).releaseCalled = true ∧
    (exception_handler sql rel (Outcome.raised (Exc.cxDatabaseError msg))
        : HandlerResult Unit).result
      = .raised (.dbtDatabase (sql ++ msg.trim)) ∧
    (∃ t, sql ++ msg.trim = sql ++ t) ∧
    (∃ p, sql ++ msg.trim = p ++ msg.trim) := by
  refine ⟨?_, ?_, ⟨msg.trim, rfl⟩, ⟨sql, rfl⟩⟩ <;>
    cases rel with
    | none => rfl
    | some r =>
        have := hrel r rfl
        simp [exception_handler, this]

/-- C3 witness: a driver error with a driver-typed release failure still
produces the `DatabaseException` carrying SQL plus stripped driver message,
after a release attempt. -/
theorem C3_driver_error_translation_witness :
    (exception_handler "select * from t" (some (Exc.cxOtherError "late"))
        (Outcome.raised (Exc.cxDatabaseError " ORA-00942: table missing "))
        : HandlerResult Unit).releaseCalled = true ∧
    (exception_handler "select * from t" (some (Exc.cxOtherError "late"))
        (Outcome.raised (Exc.cxDatabaseError " ORA-00942: table missing "))
        : HandlerResult Unit).result
      = .raised (.dbtDatabase
          ("select * from t" ++ (" ORA-00942: table missing ").trim)) :=
  ⟨(C3_driver_error_translation "select * from t" " ORA-00942: table missing "
      (some (Exc.cxOtherError "late"))
      (by intro r hr; cases hr; rfl)).1,
   (C3_driver_error_translation "select * from t" " ORA-00942: table missing "
      (some (Exc.cxOtherError "late"))
      (by intro r hr; cases hr; rfl)).2.1⟩

/-- C4: on a non-driver body error the handler calls release (whatever release
then does), and — when release returns normally — re-raises a dbt
`RuntimeException` structurally unchanged (no double wrap), while any other
exception is wrapped in `RuntimeException(e)`, which keeps the original `e`
inside as its cause. -/
theorem C4_non_driver_branch (sql : String) (e : Exc)
    (he : e.isCxDatabaseError = false) :
    (∀ rel, (exception_handler sql rel (Outcome.raised e)
        : HandlerResult Unit).releaseCalled = true) ∧
    (e.isDbtRuntime = true →
      (exception_handler sql none (Outcome.raised e)
          : HandlerResult Unit).result = .raised e) ∧
    (e.isDbtRuntime = false →
      (exception_handler sql none (Outcome.raised e)
          : HandlerResult Unit).result = .raised (.dbtRuntimeWrap e)) := by
  refine ⟨?_, ?_, ?_⟩
  · intro rel
    rw [handler_raised_nonDriver_eq sql rel e he]
    cases rel with
    | none => by_cases h : e.isDbtRuntime <;> simp [h]
    | some r => rfl
  · intro hrt
    rw [handler_raised_nonDriver_eq sql none e he]
    simp [hrt]
  · intro hrt
    rw [handler_raised_nonDriver_eq sql none e he]
    simp [hrt]

/-- C4 witness: a dbt `RuntimeException` passes through structurally identical;
a generic exception comes back wrapped with itself as cause. -/
theorem C4_non_driver_branch_witness :
    (Exc.dbtRuntime "compilation failed").isCxDatabaseError = false ∧
    (exception_handler "s" none
        (Outcome.raised (Exc.dbtRuntime "compilation failed"))
        : HandlerResult Unit).result
      = .raised (.dbtRuntime "compilation failed") ∧
    (exception_handler "s" none (Outcome.raised (Exc.generic "oops"))
        : HandlerResult Unit).result
      = .raised (.dbtRuntimeWrap (.generic "oops")) :=
  ⟨by decide,
   (C4_non_driver_branch "s" (.dbtRuntime "compilation failed")
      (by decide)).2.1 (by decide),
   (C4_non_driver_branch "s" (.generic "oops") (by decide)).2.2 (by decide)⟩

/-- C10: the two branches guard release differently. In the non-driver branch
release is unguarded: whatever exception release raises propagates and
replaces the original error. In the driver branch a driver-typed
(`cx_Oracle.Error`) failure of release is swallowed and the SQL-carrying
`DatabaseException` is still raised. -/
theorem C10_release_guard_asymmetry (sql : String) (e r : Exc)
    (he : e.isCxDatabaseError = false) :
    ((exception_handler sql (some r) (Outcome.raised e)
        : HandlerResult Unit).result = .raised r) ∧
    (∀ msg rr, Exc.isCxError rr = true →
      (exception_handler sql (some rr) (Outcome.raised (Exc.cxDatabaseError msg))
          : HandlerResult Unit).result
        = .raised (.dbtDatabase (sql ++ msg.trim))) := by
  constructor
  · rw [handler_raised_nonDriver_eq sql (some r) e he]
  · intro msg rr hrr
    simp [exception_handler, hrr]

/-- C10 witness: a generic release failure replaces a dbt runtime error in the
non-driver branch, while a driver-typed release failure does not suppress the
driver branch's `DatabaseException`. -/
theorem C10_release_guard_asymmetry_witness :
    (Exc.dbtRuntime "inner").isCxDatabaseError = false ∧
    (exception_handler "q" (some (Exc.generic "cleanup failed"))
        (Outcome.raised (Exc.dbtRuntime "inner"))
        : HandlerResult Unit).result = .raised (.generic "cleanup failed") ∧
    (exception_handler "q" (some (Exc.cxOtherError "net"))
        (Outcome.raised (Exc.cxDatabaseError "ORA-01017"))
        : HandlerResult Unit).result
      = .raised (.dbtDatabase ("q" ++ ("ORA-01017").trim)) :=
  ⟨by decide,
   (C10_release_guard_asymmetry "q" (.dbtRuntime "inner") (.generic "cleanup failed")
      (by decide)).1,
   (C10_release_guard_asymmetry "q" (.dbtRuntime "inner") (.generic "cleanup failed")
      (by decide)).2 "ORA-01017" (.cxOtherError "net") (by decide)⟩

/-- C5: `open` on an already-open connection returns it unchanged, raises
nothing and attempts no handle creation; consequently calling `open` twice on
an already-open connection leaves the same state as calling it once. -/
theorem C5_open_idempotent (conn : DBTConnection) (r r₂ : Except String Nat)
    (h : conn.state = "open") :
    openConn r conn = (conn, none, false) ∧
    (openConn r₂ (openConn r conn).1).1 = (openConn r conn).1 := by
  have h1 : openConn r conn = (conn, none, false) := by simp [openConn, h]
  refine ⟨h1, ?_⟩
  rw [h1]
  simp [openConn, h]

/-- C5 witness: opening the already-open example connection twice changes
nothing, even with a fresh handle available. -/
theorem C5_open_idempotent_witness :
    connOpenExample.state = "open" ∧
    openConn (Except.ok 99) connOpenExample = (connOpenExample, none, false) ∧
    (openConn (Except.ok 100) (openConn (Except.ok 99) connOpenExample).1).1
      = (openConn (Except.ok 99) connOpenExample).1 :=
  ⟨rfl,
   (C5_open_idempotent connOpenExample (Except.ok 99) (Except.ok 100) rfl).1,
   (C5_open_idempotent connOpenExample (Except.ok 99) (Except.ok 100) rfl).2⟩

/-- C6: when handle creation fails with a driver error, `open` sets
`handle = none`, `state = "fail"` and raises `FailedToConnectException` with
the driver message; the successful path always leaves `state = "open"` and
raises nothing; `cancel` never touches the connection record and never raises
a `FailedToConnectException`; `add_query` never changes the state field; and
`exception_handler` never constructs a `FailedToConnectException` — when one
comes out, it went in (from the wrapped body or from release). So the open
failure path is the only place that sets `"fail"` or originates
`FailedToConnectException`. -/
theorem C6_open_failure_unique (conn : DBTConnection) (msg : String)
    (h : conn.state ≠ "open") :
    openConn (Except.error msg) conn
      = ({ conn with handle := none, state := "fail" },
         some (Exc.dbtFailedToConnect msg), true) ∧
    (∀ c' : DBTConnection, ∀ hdl : Nat,
      (openConn (Except.ok hdl) c').1.state = "open" ∧
      (openConn (Except.ok hdl) c').2.1 = none) ∧
    (∀ cr, ∀ c' : DBTConnection, (cancel cr c').1 = c' ∧
      ∀ e, (cancel cr c').2 = some e → e.isFailedToConnect = false) ∧
    (∀ c' : DBTConnection, ∀ cur sql b ab abr,
      (add_query c' cur sql ab b abr).2.1.state = c'.state) ∧
    (∀ sql rel (body : Outcome Unit) r,
      (exception_handler sql rel body).result = Outcome.raised r →
      r.isFailedToConnect = true →
      body = Outcome.raised r ∨ rel = some r) := by
  refine ⟨?_, ?_, ?_, ?_, ?_⟩
  · simp [openConn, h]
  · intro c' hdl
    by_cases hc : c'.state = "open" <;> simp [openConn, hc]
  · intro cr c'
    cases cr <;> simp [cancel, Exc.isFailedToConnect]
  · intro c' cur sql b ab abr
    by_cases hb : (ab && !c'.transaction_open) = true <;> simp [add_query, hb]
  · intro sql rel body r hres hfc
    cases body with
    | ok a => simp [exception_handler] at hres
    | raised e =>
      cases e <;> cases rel <;>
        simp_all [exception_handler, Exc.isFailedToConnect, Exc.isCxError,
          Exc.isDbtRuntime]
      all_goals try (subst hres; simp at hfc)
      split at hres <;> simp_all
      subst hres
      simp at hfc

/-- C6 witness: a failed connect on the example init-state connection sets the
fail state, clears the handle and raises the connect failure. -/
theorem C6_open_failure_unique_witness :
    connInitExample.state ≠ "open" ∧
    openConn (Except.error "ORA-12154: TNS could not resolve") connInitExample
      = ({ connInitExample with handle := none, state := "fail" },
         some (Exc.dbtFailedToConnect "ORA-12154: TNS could not resolve"), true) :=
  ⟨by decide,
   (C6_open_failure_unique connInitExample "ORA-12154: TNS could not resolve"
      (by decide)).1⟩

/-- Helper: taking at least the whole length of a string returns it intact
(Python `sql[:512]` on a string of at most 512 characters). -/
theorem string_take_of_length_le (s : String) (n : Nat) (h : s.length ≤ n) :
    s.take n = s := by
  cases s with
  | mk data =>
    rw [String.take_eq]
    congr 1
    exact List.take_of_length_le h

/-- C7: `add_query` begins a transaction first exactly when `auto_begin` is
true and none is open; a truthy configured cursor precode is executed on this
very call (hence on every call) immediately before the main statement, which
is executed with its bindings and immediately followed by a commit; and the
`(connection, cursor)` pair is returned. -/
theorem C7_add_query_protocol (conn : DBTConnection) (cur : Nat) (sql b : String)
    (ab abr : Bool) :
    (ab = true → conn.transaction_open = false →
      ((add_query conn cur sql ab b abr).1).head? = some Action.beginTxn) ∧
    (ab = false ∨ conn.transaction_open = true →
      Action.beginTxn ∉ (add_query conn cur sql ab b abr).1) ∧
    (∀ p, conn.credentials.cursor_precode = some p → p ≠ "" →
      ∃ l₁ l₂, (add_query conn cur sql ab b abr).1
        = l₁ ++ Action.executePre p :: Action.executeSql sql b ::
            Action.commit :: l₂) ∧
    (truthyStr conn.credentials.cursor_precode = false →
      (∃ l₁ l₂, (add_query conn cur sql ab b abr).1
        = l₁ ++ Action.executeSql sql b :: Action.commit :: l₂) ∧
      ∀ q, Action.executePre q ∉ (add_query conn cur sql ab b abr).1) ∧
    (add_query conn cur sql ab b abr).2
      = (if ab && !conn.transaction_open then
          { conn with transaction_open := true } else conn, cur) := by
  refine ⟨?_, ?_, ?_, ?_, ?_⟩
  · intro h1 h2
    simp [add_query, h1, h2]
  · intro h
    by_cases hd : truthyOptBool conn.credentials.debug_log_commands = true <;>
      by_cases hpc : truthyStr conn.credentials.cursor_precode = true <;>
      rcases h with h | h <;>
      simp [add_query, h, hd, hpc]
  · intro p hp hne
    have hpe : p.isEmpty = false := by
      cases hq : p.isEmpty with
      | false => rfl
      | true => exact absurd ((String.isEmpty_iff p).mp hq) hne
    refine ⟨(if ab && !conn.transaction_open then [Action.beginTxn] else []) ++
      (if truthyOptBool conn.credentials.debug_log_commands then
        [Action.fireEvent ("On " ++ conn.name ++ ": " ++
          (if abr then sql.take 512 ++ "..." else sql))] else []) ++
      [Action.createCursor],
      (if truthyOptBool conn.credentials.debug_log_commands then
        [Action.fireEvent "SQL status: OK"] else []), ?_⟩
    simp [add_query, hp, truthyStr, hpe]
  · intro hpc
    constructor
    · refine ⟨(if ab && !conn.transaction_open then [Action.beginTxn] else []) ++
        (if truthyOptBool conn.credentials.debug_log_commands then
          [Action.fireEvent ("On " ++ conn.name ++ ": " ++
            (if abr then sql.take 512 ++ "..." else sql))] else []) ++
        [Action.createCursor],
        (if truthyOptBool conn.credentials.debug_log_commands then
          [Action.fireEvent "SQL status: OK"] else []), ?_⟩
      simp [add_query, hpc]
    · intro q
      by_cases hd : truthyOptBool conn.credentials.debug_log_commands = true <;>
        by_cases hb : (ab && !conn.transaction_open) = true <;>
        simp [add_query, hd, hb, hpc]
  · simp [add_query]

/-- C7 witness: on the example connection (no open transaction, precode
configured), `add_query` with `auto_begin` begins first, runs the precode
immediately before the statement with a commit immediately after, and
returns the connection/cursor pair. -/
theorem C7_add_query_protocol_witness :
    ((add_query connInitExample 5 "select 1" true "binds" false).1).head?
      = some Action.beginTxn ∧
    (∃ l₁ l₂, (add_query connInitExample 5 "select 1" true "binds" false).1
      = l₁ ++ Action.executePre "alter session set current_schema = dbt" ::
          Action.executeSql "select 1" "binds" :: Action.commit :: l₂) ∧
    (add_query connInitExample 5 "select 1" true "binds" false).2
      = ({ connInitExample with transaction_open := true }, 5) :=
  ⟨(C7_add_query_protocol connInitExample 5 "select 1" "binds" true false).1
      rfl rfl,
   (C7_add_query_protocol connInitExample 5 "select 1" "binds" true false).2.2.1
      "alter session set current_schema = dbt" rfl (by decide),
   by
    have := (C7_add_query_protocol connInitExample 5 "select 1" "binds"
      true false).2.2.2.2
    simpa using this⟩

/-- C9: with `abridge_sql_log` true (and debug logging on, else nothing is
logged), the fired log text is exactly the first 512 characters of the SQL
followed by `"..."`; the suffix is appended even when the SQL has at most 512
characters (the whole SQL is then logged, still with the suffix); and
regardless of the flag the executed statement is the untruncated SQL — the
only `execute(sql, bindings)` action carries the full SQL and bindings. -/
theorem C9_abridged_logging (conn : DBTConnection) (cur : Nat) (sql b : String)
    (ab : Bool)
    (hdbg : truthyOptBool conn.credentials.debug_log_commands = true) :
    Action.fireEvent ("On " ++ conn.name ++ ": " ++ (sql.take 512 ++ "..."))
      ∈ (add_query conn cur sql ab b true).1 ∧
    (sql.length ≤ 512 →
      Action.fireEvent ("On " ++ conn.name ++ ": " ++ (sql ++ "..."))
        ∈ (add_query conn cur sql ab b true).1) ∧
    (∀ abr : Bool, Action.executeSql sql b ∈ (add_query conn cur sql ab b abr).1 ∧
      ∀ s' b', Action.executeSql s' b' ∈ (add_query conn cur sql ab b abr).1 →
        s' = sql ∧ b' = b) := by
  refine ⟨?_, ?_, ?_⟩
  · by_cases hb : (ab && !conn.transaction_open) = true <;>
      by_cases hpc : truthyStr conn.credentials.cursor_precode = true <;>
      simp [add_query, hb, hpc, hdbg]
  · intro hlen
    have ht := string_take_of_length_le sql 512 hlen
    by_cases hb : (ab && !conn.transaction_open) = true <;>
      by_cases hpc : truthyStr conn.credentials.cursor_precode = true <;>
      simp [add_query, hb, hpc, hdbg, ht]
  · intro abr
    constructor
    · by_cases hb : (ab && !conn.transaction_open) = true <;>
        by_cases hpc : truthyStr conn.credentials.cursor_precode = true <;>
        simp [add_query, hb, hpc, hdbg]
    · intro s' b' hmem
      by_cases hb : (ab && !conn.transaction_open) = true <;>
        by_cases hpc : truthyStr conn.credentials.cursor_precode = true <;>
        simp [add_query, hb, hpc, hdbg] at hmem <;>
        exact hmem

/-- C9 witness: on the example connection with debug logging on, a short SQL
is logged abridged with the `"..."` suffix appended to the whole text, while
the executed statement is the untruncated SQL. -/
theorem C9_abridged_logging_witness :
    "select 1".length ≤ 512 ∧
    Action.fireEvent ("On " ++ connInitExample.name ++ ": " ++ ("select 1" ++ "..."))
      ∈ (add_query connInitExample 5 "select 1" true "binds" true).1 ∧
    Action.executeSql "select 1" "binds"
      ∈ (add_query connInitExample 5 "select 1" true "binds" true).1 :=
  ⟨by decide,
   (C9_abridged_logging connInitExample 5 "select 1" "binds" true rfl).2.1
      (by decide),
   ((C9_abridged_logging connInitExample 5 "select 1" "binds" true rfl).2.2
      true).1⟩

end DbtOracle
